import Mathlib

/-!
Verification of the condo-rental spreadsheet parser
(`sheet_parser/src/xlsx_parser.py`, class `CondoRentalParser`).

The Python code is shallowly embedded: a worksheet becomes a finite
association list of cells (all other cells read as the empty value `None`,
exactly as openpyxl reports them), Python cell values become the inductive
type `CellValue`, fallible code returns `Except PyErr`, and Python's
`datetime.date` constructor becomes the validity-checked `pyDate`.
Python `int(...)` over strings is modelled for ASCII digit strings
(optional surrounding whitespace, optional sign, digits with single
underscore separators); `str.isdigit` and `str.strip` are likewise
modelled over ASCII.  A Python float cell is abstracted by its `int(...)`
truncation, its `str(...)` rendering and whether its fractional part is
nonzero (which decides its truthiness); the parser never does float
arithmetic, so this captures every use site.
-/

/-- Python whitespace characters recognised by `str.strip()` and `int()`
(ASCII fragment). -/
def pyIsSpace (c : Char) : Bool :=
  c = ' ' || c = '\t' || c = '\n' || c = '\x0d' || c = '\x0b' || c = '\x0c'

/-- Strip whitespace from both ends of a character list, as `str.strip()`. -/
def pyStrip (cs : List Char) : List Char :=
  ((cs.dropWhile pyIsSpace).reverse.dropWhile pyIsSpace).reverse

/-- Tail of a digit run for Python `int()`: digits, with single underscores
allowed between digits. -/
def pyDigitsTail : List Char → Bool
  | [] => true
  | '_' :: d :: r => d.isDigit && pyDigitsTail r
  | ['_'] => false
  | c :: r => c.isDigit && pyDigitsTail r

/-- A nonempty digit run acceptable to Python `int()` (after sign removal). -/
def pyDigitsOk : List Char → Bool
  | [] => false
  | c :: rest => c.isDigit && pyDigitsTail rest

/-- Numeric value of a digit run, ignoring underscore separators. -/
def digitsVal (cs : List Char) : Nat :=
  cs.foldl (fun acc c => if c = '_' then acc else acc * 10 + (c.toNat - ('0').toNat)) 0

/-- Python `int(s)` on a string: strip whitespace, optional sign, digit run;
`none` models the `ValueError` that the callers catch. -/
def pyIntOfString (s : String) : Option Int :=
  match pyStrip s.data with
  | '+' :: rest => if pyDigitsOk rest then some (digitsVal rest : Int) else none
  | '-' :: rest => if pyDigitsOk rest then some (-(digitsVal rest : Int)) else none
  | rest => if pyDigitsOk rest then some (digitsVal rest : Int) else none

/-- Python `str.isdigit()` (ASCII fragment): nonempty and all digits. -/
def pyIsdigit (cs : List Char) : Bool :=
  !cs.isEmpty && cs.all Char.isDigit

/-- Does `hay` start with `needle`? (helper for substring containment). -/
def leadsWith : List Char → List Char → Bool
  | [], _ => true
  | _ :: _, [] => false
  | n :: ns, h :: hs => n = h && leadsWith ns hs

/-- Python's `needle in hay` for strings: substring containment. -/
def containsSub : List Char → List Char → Bool
  | needle, [] => needle.isEmpty
  | needle, h :: t => leadsWith needle (h :: t) || containsSub needle t

/-- Python `str.split(' ')`: split on every single space, keeping empties. -/
def splitOnSpace : List Char → List (List Char)
  | [] => [[]]
  | c :: rest =>
      if c = ' ' then [] :: splitOnSpace rest
      else
        match splitOnSpace rest with
        | h :: t => (c :: h) :: t
        | [] => [[c]]

/-- Index of the last occurrence of `c`, as Python `str.rfind` (meaningful
only when `c` occurs; the caller guards with containment). -/
def lastIdxAux (c : Char) : List Char → Nat → Nat → Nat
  | [], _, acc => acc
  | x :: rest, i, acc => lastIdxAux c rest (i + 1) (if x = c then i else acc)

/-- Python `s.rfind(c)` under the guarantee that `c ∈ s`. -/
def lastIdx (cs : List Char) (c : Char) : Nat :=
  lastIdxAux c cs 0 0

/-- A cell value as surfaced by openpyxl: empty (`None`), an int, a bool
(a Python `int` subclass), a float, or a string.  A float carries its
`int()` truncation, its `str()` rendering and whether its fractional part
is nonzero. -/
inductive CellValue where
  | none
  | int (n : Int)
  | bool (b : Bool)
  | float (trunc : Int) (render : String) (frac : Bool)
  | str (s : String)
deriving DecidableEq, Repr

/-- Python `str(v)` on a cell value. -/
def pyStr : CellValue → String
  | CellValue.none => "None"
  | CellValue.int n => toString n
  | CellValue.bool b => if b then ("True") else ("False")
  | CellValue.float _ r _ => r
  | CellValue.str s => s

/-- Python truthiness of a cell value (`if value:`). -/
def pyTruthy : CellValue → Bool
  | CellValue.none => false
  | CellValue.int n => !(n = 0)
  | CellValue.bool b => b
  | CellValue.float t _ f => !(t = 0) || f
  | CellValue.str s => !(s = "")

/-- Python `int(v)` on a cell value; `none` models the `ValueError` or
`TypeError` that the caller catches. -/
def pyIntOfCell : CellValue → Option Int
  | CellValue.none => none
  | CellValue.int n => some n
  | CellValue.bool b => some (if b then 1 else 0)
  | CellValue.float t _ _ => some t
  | CellValue.str s => pyIntOfString s

/-- A calendar date as built by Python `datetime.date(year, month, day)`. -/
structure PyDate where
  year : Int
  month : Int
  day : Int
deriving DecidableEq, Repr

/-- Gregorian leap-year test used by `datetime.date`. -/
def isLeapYear (y : Int) : Bool :=
  y % 4 = 0 && (!(y % 100 = 0) || y % 400 = 0)

/-- Days in a month, as validated by `datetime.date`. -/
def daysInMonth (y m : Int) : Int :=
  if m = 2 then (if isLeapYear y then 29 else 28)
  else if m = 4 ∨ m = 6 ∨ m = 9 ∨ m = 11 then 30
  else 31

/-- Python `datetime.date(y, m, d)`; `none` models the `ValueError` raised
on out-of-range components (year 1..9999), which the parser catches. -/
def pyDate (y m d : Int) : Option PyDate :=
  if 1 ≤ y ∧ y ≤ 9999 ∧ 1 ≤ m ∧ m ≤ 12 ∧ 1 ≤ d ∧ d ≤ daysInMonth y m then
    some { year := y, month := m, day := d }
  else none

/-- The `SPANISH_MONTHS` dict of `CondoRentalParser`, as its (pointwise)
lookup function: dict keys are unique, so `k in d` followed by `d[k]` is
exactly this 12-way test. -/
def SPANISH_MONTHS (a : String) : Option Int :=
  if a = "Ene." then some 1
  else if a = "Feb." then some 2
  else if a = "Mar." then some 3
  else if a = "Abr." then some 4
  else if a = "May." then some 5
  else if a = "Jun." then some 6
  else if a = "Jul." then some 7
  else if a = "Ago." then some 8
  else if a = "Sep." then some 9
  else if a = "Oct." then some 10
  else if a = "Nov." then some 11
  else if a = "Dic." then some 12
  else none

/-- Embeds `CondoRentalParser.parse_sheet_date`: split the sheet name on spaces,
require exactly two tokens, look the first up in `SPANISH_MONTHS`, parse
the second with `int()`; every failure (including the caught `ValueError`)
returns `(None, None)`. -/
def parse_sheet_date (sheetName : String) : Option Int × Option Int :=
  match splitOnSpace sheetName.data with
  | [a, y] =>
      match SPANISH_MONTHS (String.mk a) with
      | some m =>
          match pyIntOfString (String.mk y) with
          | some n => (some m, some n)
          | Option.none => (none, none)
      | Option.none => (none, none)
  | _ => (none, none)

/-- The twelve-entry month-abbreviation vocabulary in calendar order, as
the specification states it; index `i` is the abbreviation of month
`i + 1`. -/
def MONTH_ABBREVS : List String :=
  ["Ene.", "Feb.", "Mar.", "Abr.", "May.", "Jun.",
   "Jul.", "Ago.", "Sep.", "Oct.", "Nov.", "Dic."]

/-- ASCII uppercase of one character, as Python `str.upper()` on hex text. -/
def asciiUpper (c : Char) : Char :=
  if 'a' ≤ c ∧ c ≤ 'z' then Char.ofNat (c.toNat - 32) else c

/-- Python `s.upper()` (ASCII fragment, enough for hex color strings). -/
def upperStr (s : String) : String :=
  String.mk (s.data.map asciiUpper)

/-- An openpyxl `Color.index`: an int (theme/indexed color) or a string. -/
inductive ColorIndex where
  | int (n : Int)
  | str (s : String)
deriving DecidableEq, Repr

/-- The `cell.fill.start_color` descriptor: its `.index`, and its `.rgb`
attribute (`none` models both an unavailable attribute, which raises and is
caught by the source's bare `except`, and a non-string/`None` value). -/
structure StartColor where
  index : ColorIndex
  rgb : Option String
deriving DecidableEq, Repr

/-- The `cell.fill` descriptor consumed by `_get_cell_color`. -/
structure CellFill where
  fill_type : Option String
  start_color : StartColor
deriving DecidableEq, Repr

/-- The `value` field of a `ColorInfo`: a hex string, a theme index, or a
raw string index. -/
inductive ColorVal where
  | str (s : String)
  | int (n : Int)
deriving DecidableEq, Repr

/-- The color dictionary built by `_get_cell_color`: `type`, `value`, and
the `meaning` key that is only added on a legend match. -/
structure ColorInfo where
  type : String
  value : Option ColorVal
  meaning : Option String
deriving DecidableEq, Repr

/-- The `COLOR_LEGEND` dict: hex code, optional theme index, meaning; dict insertion
order is preserved because the source iterates `COLOR_LEGEND.items()` and
breaks at the first match. -/
def COLOR_LEGEND : List (String × Option Int × String) :=
  [("#FF6B6B", some 5, "Pendiente de pago"),
   ("#FFC000", some 7, "Cliente Airbnb"),
   ("#2F75B5", some 4, "Larga estadia"),
   ("#2F75B5", some 8, "Larga estadia"),
   ("#F408FC", some 6, "Apto no disponible"),
   ("#00FFFF", Option.none, "Cliente referido"),
   ("#757171", some 0, "Mantenimiento"),
   ("#548235", some 9, "Booking"),
   ("#29E817", Option.none, "Cliente VRBO")]

/-- Does the string start with the two characters `FF` (Python
`rgb.startswith('FF')`)? -/
def startsFF : List Char → Bool
  | 'F' :: 'F' :: _ => true
  | _ => false

/-- The hex normalisation of `_get_cell_color`: drop a leading `FF` pair if
present, then prepend `#`. -/
def rgbHexOf (rgb : String) : String :=
  if startsFF rgb.data then String.mk ('#' :: rgb.data.drop 2)
  else String.mk ('#' :: rgb.data)

/-- First legend meaning whose hex matches case-insensitively
(the `legend_key[0].upper() == rgb_hex.upper()` loops). -/
def legendFindHex (h : String) : Option String :=
  (COLOR_LEGEND.find? (fun e => upperStr e.1 == upperStr h)).map (fun e => e.2.2)

/-- The rgb-typed color dict built whenever an RGB string was obtained:
normalised value plus the optional legend meaning (the two identical
rgb-handling blocks of `_get_cell_color`). -/
def rgbColorInfo (rgb : String) : ColorInfo :=
  { type := "rgb", value := some (ColorVal.str (rgbHexOf rgb)),
    meaning := legendFindHex (rgbHexOf rgb) }

/-- Theme-index fallback of `_get_cell_color`: first legend entry with that
theme index, else a `theme`-typed result carrying the raw index. -/
def themeLegendColor (n : Int) : ColorInfo :=
  match COLOR_LEGEND.find? (fun e => e.2.1 == some n) with
  | some e => { type := "rgb", value := some (ColorVal.str e.1), meaning := some e.2.2 }
  | Option.none => { type := "theme", value := some (ColorVal.int n), meaning := none }

/-- Embeds `CondoRentalParser._get_cell_color`, the fill classifier.  The `none`
result covers the `fill_type == 'none'` and `index == '00000000'` early
returns; a cell object itself is always truthy, so the `not cell` guard
never fires. -/
def get_cell_color (fill : CellFill) : Option ColorInfo :=
  if fill.fill_type = some ("none") ∨ fill.start_color.index = ColorIndex.str ("00000000") then
    none
  else
    match fill.start_color.index with
    | ColorIndex.int n =>
        match fill.start_color.rgb with
        | some rgb => if rgb = "" then some (themeLegendColor n) else some (rgbColorInfo rgb)
        | Option.none => some (themeLegendColor n)
    | ColorIndex.str s =>
        if startsFF s.data then
          some { type := "rgb",
                 value := some (ColorVal.str (String.mk ('#' :: s.data.drop 2))),
                 meaning := legendFindHex (String.mk ('#' :: s.data.drop 2)) }
        else
          match fill.start_color.rgb with
          | some rgb =>
              if rgb = "" then some { type := "other", value := some (ColorVal.str s), meaning := none }
              else some (rgbColorInfo rgb)
          | Option.none => some { type := "other", value := some (ColorVal.str s), meaning := none }

/-- A worksheet, as the two parallel openpyxl views consumed by the parser:
`cells` is the `data_only=True` value grid, while `fills` and `comments`
come from the formula-preserving view.  Cells absent from the lists read as
`CellValue.none` (openpyxl returns `None` for untouched cells) and carry
the openpyxl default fill, whose `start_color.index` is the `'00000000'`
no-color sentinel.  Coordinates are 1-based (row, column); column letters
of the source are resolved statically (`A` = 1, `B` = 2, `C` = 3,
`AD` = 30). -/
structure Sheet where
  cells : List (Nat × Nat × CellValue)
  fills : List (Nat × Nat × CellFill)
  comments : List (Nat × Nat × String)
deriving Repr

/-- Value of `sheet.cell(row=r, column=c).value`. -/
def Sheet.cellAt (sh : Sheet) (r c : Nat) : CellValue :=
  match sh.cells.find? (fun e => e.1 == r && e.2.1 == c) with
  | some e => e.2.2
  | Option.none => CellValue.none

/-- The openpyxl default `PatternFill`: no pattern, `'00000000'` color. -/
def defaultFill : CellFill :=
  { fill_type := none,
    start_color := { index := ColorIndex.str ("00000000"), rgb := some ("00000000") } }

/-- Fill of `sheet_with_comments.cell(row=r, column=c).fill`. -/
def Sheet.fillAt (sh : Sheet) (r c : Nat) : CellFill :=
  match sh.fills.find? (fun e => e.1 == r && e.2.1 == c) with
  | some e => e.2.2
  | Option.none => defaultFill

/-- Text of `cell.comment.text`, or `none` when `cell.comment` is falsy. -/
def Sheet.commentAt (sh : Sheet) (r c : Nat) : Option String :=
  (sh.comments.find? (fun e => e.1 == r && e.2.1 == c)).map (fun e => e.2.2)

/-- A row index past every populated cell; rows beyond it read as empty. -/
def Sheet.rowBound (sh : Sheet) : Nat :=
  sh.cells.foldr (fun e acc => max e.1 acc) 0

/-- Embeds `CondoRentalParser.read_range`: the nested row/column loop over an
inclusive cell range, returning rows of cell values. -/
def read_range (sh : Sheet) (r1 c1 r2 c2 : Nat) : List (List CellValue) :=
  (List.range (r2 + 1 - r1)).map
    (fun i => (List.range (c2 + 1 - c1)).map (fun j => sh.cellAt (r1 + i) (c1 + j)))

/-- The fallback apartment counter of `parse_building_table`: count
consecutive non-empty column-A cells from `row` downwards (the `while`
loop).  The fuel argument only bounds the recursion; called with fuel
exceeding `Sheet.rowBound`, it always reaches an empty cell first, so it
computes exactly what the source loop computes on a finite sheet. -/
def countAptsFrom (sh : Sheet) : Nat → Nat → Nat
  | _, 0 => 0
  | row, f + 1 =>
      if sh.cellAt row 1 = CellValue.none then 0
      else countAptsFrom sh (row + 1) f + 1

/-- Number of apartment rows scanned: the declared count in column A if
`int()` accepts it (negative declared counts make `range()` empty, hence
`Int.toNat`), else the fallback count starting two rows below. -/
def declaredApartments (sh : Sheet) (buildingStartRow : Nat) : Nat :=
  match pyIntOfCell (sh.cellAt buildingStartRow 1) with
  | some n => n.toNat
  | Option.none => countAptsFrom sh (buildingStartRow + 2) (sh.rowBound + 2)

/-- One day-header cell to an optional date (the loop over `date_numbers`):
a native int (or bool, an int subclass) is used directly, anything else
goes through `int(str(value).strip())`; a `None` cell, an unparseable
cell, or a `datetime.date` `ValueError` yields the `None` placeholder. -/
def parseDayCell (y m : Int) : CellValue → Option PyDate
  | CellValue.none => none
  | CellValue.int n => pyDate y m n
  | CellValue.bool b => pyDate y m (if b then 1 else 0)
  | v =>
      match pyIntOfString (pyStr v) with
      | some d => pyDate y m d
      | Option.none => none

/-- The `dates` list of `parse_building_table`: the day-number header row
`C5:AD5` (`read_range(...)[0]`, a single-row range), one optional date per
column, position-preserving. -/
def datesOf (sh : Sheet) (y m : Int) : List (Option PyDate) :=
  ((read_range sh 5 3 5 30).headD []).map (parseDayCell y m)

/-- The exception value for an uncaught Python `TypeError`. -/
inductive PyErr where
  | typeError
deriving DecidableEq, Repr

/-- One reservation dict: the constructed date (the source serialises it
with `isoformat()`, a lossless rendering kept here as the date value),
the rate as `str(cell_value)`, the classified color, and the comment. -/
structure ReservationRecord where
  date : PyDate
  rate : Option String
  color : Option ColorInfo
  comment : Option String
deriving DecidableEq, Repr

/-- One apartment dict: optional code, owner (the raw cell value in the
miscellaneous-building branch, hence a `CellValue`), the verbatim cell
text, and the reservations. -/
structure ApartmentRecord where
  code : Option String
  owner : CellValue
  raw_text : CellValue
  reservations : List ReservationRecord
deriving DecidableEq, Repr

/-- One building dict of `parse_building_table`. -/
structure BuildingRecord where
  name : CellValue
  month : Int
  year : Int
  apartments : List ApartmentRecord
deriving DecidableEq, Repr

/-- The sheet dict of `parse_sheet`. -/
structure SheetDocument where
  month : Int
  year : Int
  buildings : List BuildingRecord
deriving DecidableEq, Repr

/-- The reservation loop `for j, date_val in enumerate(dates)` for one
apartment row: `j` is the running enumeration index, columns are `j + 3`
(column C is index 0), `None` dates and empty cells emit nothing. -/
def buildReservationsAux (sh : Sheet) (rowNum : Nat) : Nat → List (Option PyDate) → List ReservationRecord
  | _, [] => []
  | j, d? :: rest =>
      match d? with
      | Option.none => buildReservationsAux sh rowNum (j + 1) rest
      | some d =>
          if sh.cellAt rowNum (j + 3) = CellValue.none then
            buildReservationsAux sh rowNum (j + 1) rest
          else
            { date := d,
              rate := some (pyStr (sh.cellAt rowNum (j + 3))),
              color := get_cell_color (sh.fillAt rowNum (j + 3)),
              comment := sh.commentAt rowNum (j + 3) } :: buildReservationsAux sh rowNum (j + 1) rest

/-- Reservations of the apartment at `rowNum`, scanning the dated columns. -/
def buildReservations (sh : Sheet) (rowNum : Nat) (dates : List (Option PyDate)) : List ReservationRecord :=
  buildReservationsAux sh rowNum 0 dates

/-- The excluded-building list of `CondoRentalParser`. -/
def EXCLUDED_BUILDINGS : List String :=
  ["LIMPIEZAS EXTERNAS"]

/-- One pass of the apartment loop body of `parse_building_table` for the
row `rowNum`: an empty code/owner cell is skipped (`ok none`); in the
miscellaneous building (`"OTROS APARTAMENTOS"` in the name) the whole cell
value becomes the owner with a null code; otherwise the cell must be a
string — the source evaluates `'-' in apt_info`, which raises `TypeError`
on a non-string value — and is split on the last `-` (both halves
stripped), or used whole as the code with an empty owner. -/
def processApartment (buildingName : CellValue) (sh : Sheet) (dates : List (Option PyDate))
    (rowNum : Nat) : Except PyErr (Option ApartmentRecord) :=
  if sh.cellAt rowNum 2 = CellValue.none then Except.ok none
  else if pyTruthy buildingName && containsSub ("OTROS APARTAMENTOS").data (pyStr buildingName).data then
    Except.ok (some { code := none, owner := sh.cellAt rowNum 2, raw_text := sh.cellAt rowNum 2,
                      reservations := buildReservations sh rowNum dates })
  else
    match sh.cellAt rowNum 2 with
    | CellValue.none => Except.ok none
    | CellValue.str s =>
        if containsSub ['-'] s.data then
          Except.ok (some
            { code := some (String.mk (pyStrip (s.data.take (lastIdx s.data '-')))),
              owner := CellValue.str (String.mk (pyStrip (s.data.drop (lastIdx s.data '-' + 1)))),
              raw_text := CellValue.str s,
              reservations := buildReservations sh rowNum dates })
        else
          Except.ok (some
            { code := some s, owner := CellValue.str (""), raw_text := CellValue.str s,
              reservations := buildReservations sh rowNum dates })
    | _ => Except.error PyErr.typeError

/-- The apartment loop `for i in range(num_apartments)` over consecutive
rows from `startRow`, collecting the non-skipped records in row order; a
raised `TypeError` aborts the whole loop, as in the source. -/
def collectApartments (buildingName : CellValue) (sh : Sheet) (dates : List (Option PyDate)) :
    Nat → Nat → Except PyErr (List ApartmentRecord)
  | _, 0 => Except.ok []
  | startRow, n + 1 =>
      match processApartment buildingName sh dates startRow with
      | Except.error e => Except.error e
      | Except.ok a? =>
          match collectApartments buildingName sh dates (startRow + 1) n with
          | Except.error e => Except.error e
          | Except.ok rest =>
              Except.ok (match a? with | some a => a :: rest | Option.none => rest)

/-- Embeds `CondoRentalParser.parse_building_table` for a loaded workbook and an
existing sheet.  In source order: the excluded-building substring check on
the column-B name (only reached when the name is truthy), the apartment
count, the sheet-date guard, the calendar headers (the weekday row
`C4:AD4` is read but never used, so it does not appear in the result),
the date list from `C5:AD5`, and the apartment loop starting two rows
below the building row.  `ok none` is the `{}` "nothing usable" result;
`error` is an uncaught exception escaping the call. -/
def parse_building_table (sheetName : String) (sh : Sheet) (buildingStartRow : Nat) :
    Except PyErr (Option BuildingRecord) :=
  if pyTruthy (sh.cellAt buildingStartRow 2) &&
     EXCLUDED_BUILDINGS.any (fun ex => containsSub ex.data (pyStr (sh.cellAt buildingStartRow 2)).data) then
    Except.ok none
  else
    match parse_sheet_date sheetName with
    | (some m, some y) =>
        match collectApartments (sh.cellAt buildingStartRow 2) sh (datesOf sh y m)
            (buildingStartRow + 2) (declaredApartments sh buildingStartRow) with
        | Except.ok apts =>
            Except.ok (some { name := sh.cellAt buildingStartRow 2, month := m, year := y,
                              apartments := apts })
        | Except.error e => Except.error e
    | (_, _) => Except.ok none

/-- Is the cell value a Python `int` or `float` instance (`bool` being an
`int` subclass)? -/
def isNumberInstance : CellValue → Bool
  | CellValue.int _ => true
  | CellValue.bool _ => true
  | CellValue.float _ _ _ => true
  | _ => false

/-- Is the cell value a string passing `str.isdigit()`? -/
def isDigitString : CellValue → Bool
  | CellValue.str s => pyIsdigit s.data
  | _ => false

/-- The row test of `find_building_rows`: column B non-`None`, column A an
int/float instance or an all-digits string, and `"H"` in column A of the
next row. -/
def isBuildingStart (sh : Sheet) (row : Nat) : Bool :=
  decide (¬ sh.cellAt row 2 = CellValue.none) &&
  (isNumberInstance (sh.cellAt row 1) || isDigitString (sh.cellAt row 1)) &&
  decide (sh.cellAt (row + 1) 1 = CellValue.str ("H"))

/-- Embeds `CondoRentalParser.find_building_rows` for a loaded workbook and an
existing sheet: scan rows `range(6, 122)` in order, keeping the rows that
pass `isBuildingStart`. -/
def find_building_rows (sh : Sheet) : List Nat :=
  (List.range' 6 116).filter (fun row => isBuildingStart sh row)

/-- Sequencing of building-table parses inside `parse_sheet`: the first
uncaught exception aborts the whole sheet parse. -/
def exMapM (f : Nat → Except PyErr (Option BuildingRecord)) :
    List Nat → Except PyErr (List (Option BuildingRecord))
  | [] => Except.ok []
  | r :: rs =>
      match f r with
      | Except.error e => Except.error e
      | Except.ok b =>
          match exMapM f rs with
          | Except.error e => Except.error e
          | Except.ok bs => Except.ok (b :: bs)

/-- Embeds `CondoRentalParser.parse_sheet` for a loaded workbook: resolve the
sheet date, find the building rows (empty means the `{}` result), parse
every building table in row order and keep the truthy (non-`{}`) ones. -/
def parse_sheet (sheetName : String) (sh : Sheet) : Except PyErr (Option SheetDocument) :=
  match parse_sheet_date sheetName with
  | (some m, some y) =>
      if (find_building_rows sh).isEmpty then Except.ok none
      else
        match exMapM (fun r => parse_building_table sheetName sh r) (find_building_rows sh) with
        | Except.ok bs =>
            Except.ok (some { month := m, year := y, buildings := bs.filterMap id })
        | Except.error e => Except.error e
  | (_, _) => Except.ok none

/-- Example sheet for the `"Dic. 2025"` tab: day headers `5`, `"abc"`, `6`
in C5:E5, one building at row 6 (count 2, marker `"H"` at row 7), two
apartment rows, a filled and commented rate cell at C8, and an occupied
cell at E8 and C9. -/
def exS : Sheet :=
  { cells :=
      [(5, 3, CellValue.int 5), (5, 4, CellValue.str ("abc")), (5, 5, CellValue.int 6),
       (6, 1, CellValue.int 2), (6, 2, CellValue.str ("EDIFICIO A")), (7, 1, CellValue.str ("H")),
       (8, 2, CellValue.str ("101 - Jane Doe")), (9, 2, CellValue.str (" A102 ")),
       (8, 3, CellValue.str ("120.5")), (8, 5, CellValue.int 99), (9, 3, CellValue.str ("x"))],
    fills :=
      [(8, 3, { fill_type := some ("solid"),
                start_color := { index := ColorIndex.str ("FFFF6B6B"), rgb := some ("FFFF6B6B") } })],
    comments := [(8, 3, "Paid half")] }

/-- First reservation of the first example apartment. -/
def exRes1 : ReservationRecord :=
  { date := { year := 2025, month := 12, day := 5 }, rate := some ("120.5"),
    color := some { type := "rgb", value := some (ColorVal.str ("#FF6B6B")),
                    meaning := some ("Pendiente de pago") },
    comment := some ("Paid half") }

/-- Second reservation of the first example apartment. -/
def exRes2 : ReservationRecord :=
  { date := { year := 2025, month := 12, day := 6 }, rate := some ("99"),
    color := none, comment := none }

/-- Reservation of the second example apartment. -/
def exRes3 : ReservationRecord :=
  { date := { year := 2025, month := 12, day := 5 }, rate := some ("x"),
    color := none, comment := none }

/-- First example apartment: code/owner split on the last separator. -/
def exApt1 : ApartmentRecord :=
  { code := some ("101"), owner := CellValue.str ("Jane Doe"),
    raw_text := CellValue.str ("101 - Jane Doe"), reservations := [exRes1, exRes2] }

/-- Second example apartment: no separator, untrimmed code, empty owner. -/
def exApt2 : ApartmentRecord :=
  { code := some (" A102 "), owner := CellValue.str (""),
    raw_text := CellValue.str (" A102 "), reservations := [exRes3] }

/-- The building record produced from `exS` at row 6. -/
def exB : BuildingRecord :=
  { name := CellValue.str ("EDIFICIO A"), month := 12, year := 2025,
    apartments := [exApt1, exApt2] }

/-- The sheet document produced from `exS`. -/
def exDoc : SheetDocument :=
  { month := 12, year := 2025, buildings := [exB] }

/-- Sheet with a building-like block at row 6 whose column-A cell is the
integer `0` (not a positive integer): B6 non-empty, marker `"H"` at A7. -/
def exC2sheet : Sheet :=
  { cells := [(6, 1, CellValue.int 0), (6, 2, CellValue.str ("X")), (7, 1, CellValue.str ("H"))],
    fills := [], comments := [] }

/-- Sheet with a building at row 10 (marker at row 11): the global day
header row 5 holds day `5` at C5, while the rows directly below the
marker hold the apartment cell `"x"` at C12 and the day number `9` at
C13. -/
def exC3sheet : Sheet :=
  { cells :=
      [(5, 3, CellValue.int 5),
       (10, 1, CellValue.int 1), (10, 2, CellValue.str ("EDIF B")), (11, 1, CellValue.str ("H")),
       (12, 2, CellValue.str ("101 - Jane")), (12, 3, CellValue.str ("x")),
       (13, 3, CellValue.int 9)],
    fills := [], comments := [] }

/-- The building record produced from `exC3sheet` at row 10. -/
def exC3building : BuildingRecord :=
  { name := CellValue.str ("EDIF B"), month := 12, year := 2025,
    apartments :=
      [{ code := some ("101"), owner := CellValue.str ("Jane"),
         raw_text := CellValue.str ("101 - Jane"),
         reservations := [{ date := { year := 2025, month := 12, day := 5 },
                            rate := some ("x"), color := none, comment := none }] }] }

/-- Sheet whose single apartment code/owner cell (B8) holds the integer
`101` instead of a string. -/
def exC4sheet : Sheet :=
  { cells :=
      [(6, 1, CellValue.int 1), (6, 2, CellValue.str ("EDIF")), (7, 1, CellValue.str ("H")),
       (8, 2, CellValue.int 101)],
    fills := [], comments := [] }

/-- Sheet whose occupied day cell C8 holds the non-numeric rate text
`"abc"` under the day-5 header. -/
def exC5sheet : Sheet :=
  { cells :=
      [(5, 3, CellValue.int 5),
       (6, 1, CellValue.int 1), (6, 2, CellValue.str ("EDIF")), (7, 1, CellValue.str ("H")),
       (8, 2, CellValue.str ("101 - Jane")), (8, 3, CellValue.str ("abc"))],
    fills := [], comments := [] }

/-- The building record produced from `exC5sheet` at row 6. -/
def exC5building : BuildingRecord :=
  { name := CellValue.str ("EDIF"), month := 12, year := 2025,
    apartments :=
      [{ code := some ("101"), owner := CellValue.str ("Jane"),
         raw_text := CellValue.str ("101 - Jane"),
         reservations := [{ date := { year := 2025, month := 12, day := 5 },
                            rate := some ("abc"), color := none, comment := none }] }] }

lemma pyDate_some {y m d : Int} {dt : PyDate} (h : pyDate y m d = some dt) :
    dt.year = y ∧ dt.month = m := by
  unfold pyDate at h
  split at h
  · have h' := Option.some.inj h
    subst h'
    exact ⟨rfl, rfl⟩
  · exact absurd h (by simp)

lemma parseDayCell_some {y m : Int} {v : CellValue} {dt : PyDate}
    (h : parseDayCell y m v = some dt) : dt.year = y ∧ dt.month = m := by
  cases v with
  | none => simp [parseDayCell] at h
  | int n => exact pyDate_some (by simpa [parseDayCell] using h)
  | bool b => exact pyDate_some (by simpa [parseDayCell] using h)
  | float t r f =>
      simp only [parseDayCell] at h
      split at h
      · exact pyDate_some h
      · exact absurd h (by simp)
  | str s =>
      simp only [parseDayCell] at h
      split at h
      · exact pyDate_some h
      · exact absurd h (by simp)

lemma datesOf_eq (sh : Sheet) (y m : Int) :
    datesOf sh y m = (List.range 28).map (fun j => parseDayCell y m (sh.cellAt 5 (3 + j))) := by
  simp [datesOf, read_range, List.map_map]
  rfl

lemma datesOf_length (sh : Sheet) (y m : Int) : (datesOf sh y m).length = 28 := by
  rw [datesOf_eq]
  simp

lemma datesOf_getElem (sh : Sheet) (y m : Int) (j : Nat) (hj : j < 28) :
    (datesOf sh y m)[j]? = some (parseDayCell y m (sh.cellAt 5 (3 + j))) := by
  rw [datesOf_eq, List.getElem?_map, List.getElem?_range hj]
  rfl

lemma datesOf_some_elim (sh : Sheet) (y m : Int) (j : Nat) (d : PyDate)
    (h : (datesOf sh y m)[j]? = some (some d)) :
    j < 28 ∧ parseDayCell y m (sh.cellAt 5 (3 + j)) = some d ∧ d.year = y ∧ d.month = m := by
  have hj : j < 28 := by
    rcases List.getElem?_eq_some.mp h with ⟨hlt, _⟩
    simpa [datesOf_length] using hlt
  have h2 : parseDayCell y m (sh.cellAt 5 (3 + j)) = some d := by
    rw [datesOf_getElem sh y m j hj] at h
    exact Option.some.inj h
  exact ⟨hj, h2, (parseDayCell_some h2).1, (parseDayCell_some h2).2⟩

lemma buildReservationsAux_mem (sh : Sheet) (row : Nat) :
    ∀ (ds : List (Option PyDate)) (j : Nat) (res : ReservationRecord),
      res ∈ buildReservationsAux sh row j ds →
      ∃ k d, k < ds.length ∧ ds[k]? = some (some d) ∧
        ¬ sh.cellAt row (j + k + 3) = CellValue.none ∧
        res = { date := d, rate := some (pyStr (sh.cellAt row (j + k + 3))),
                color := get_cell_color (sh.fillAt row (j + k + 3)),
                comment := sh.commentAt row (j + k + 3) } := by
  intro ds
  induction ds with
  | nil =>
      intro j res h
      simp [buildReservationsAux] at h
  | cons d? rest ih =>
      intro j res h
      cases d? with
      | none =>
          obtain ⟨k, d, hk, hget, hne, heq⟩ :=
            ih (j + 1) res (by simpa [buildReservationsAux] using h)
          have hsh : j + 1 + k + 3 = j + (k + 1) + 3 := by omega
          refine ⟨k + 1, d, by simpa using Nat.succ_lt_succ hk, by simpa using hget, ?_, ?_⟩
          · rw [← hsh]; exact hne
          · rw [← hsh]; exact heq
      | some d0 =>
          by_cases hc : sh.cellAt row (j + 3) = CellValue.none
          · obtain ⟨k, d, hk, hget, hne, heq⟩ :=
              ih (j + 1) res (by simpa [buildReservationsAux, hc] using h)
            have hsh : j + 1 + k + 3 = j + (k + 1) + 3 := by omega
            refine ⟨k + 1, d, by simpa using Nat.succ_lt_succ hk, by simpa using hget, ?_, ?_⟩
            · rw [← hsh]; exact hne
            · rw [← hsh]; exact heq
          · rw [buildReservationsAux, if_neg hc] at h
            rcases List.mem_cons.mp h with h0 | h1
            · exact ⟨0, d0, by simp, by simp, by simpa using hc, by simpa using h0⟩
            · obtain ⟨k, d, hk, hget, hne, heq⟩ := ih (j + 1) res h1
              have hsh : j + 1 + k + 3 = j + (k + 1) + 3 := by omega
              refine ⟨k + 1, d, by simpa using Nat.succ_lt_succ hk, by simpa using hget, ?_, ?_⟩
              · rw [← hsh]; exact hne
              · rw [← hsh]; exact heq

lemma collectApartments_mem (bn : CellValue) (sh : Sheet) (dates : List (Option PyDate)) :
    ∀ (n startRow : Nat) (apts : List ApartmentRecord),
      collectApartments bn sh dates startRow n = Except.ok apts →
      ∀ apt ∈ apts, ∃ i, i < n ∧
        processApartment bn sh dates (startRow + i) = Except.ok (some apt) := by
  intro n
  induction n with
  | zero =>
      intro s apts h apt hm
      simp only [collectApartments, Except.ok.injEq] at h
      subst h
      simp at hm
  | succ n ih =>
      intro s apts h apt hm
      rcases hpa : processApartment bn sh dates s with e | a?
      · simp [collectApartments, hpa] at h
      · rcases hr : collectApartments bn sh dates (s + 1) n with e | rest
        · simp [collectApartments, hpa, hr] at h
        · simp only [collectApartments, hpa, hr, Except.ok.injEq] at h
          cases a? with
          | some a =>
              subst h
              rcases List.mem_cons.mp hm with rfl | hm1
              · exact ⟨0, by omega, by simpa using hpa⟩
              · obtain ⟨i, hi, hp⟩ := ih (s + 1) rest hr apt hm1
                refine ⟨i + 1, by omega, ?_⟩
                have : s + (i + 1) = s + 1 + i := by omega
                rw [this]; exact hp
          | none =>
              subst h
              obtain ⟨i, hi, hp⟩ := ih (s + 1) rest hr apt hm
              refine ⟨i + 1, by omega, ?_⟩
              have : s + (i + 1) = s + 1 + i := by omega
              rw [this]; exact hp

lemma collectApartments_error_elim (bn : CellValue) (sh : Sheet) (dates : List (Option PyDate)) :
    ∀ (n startRow : Nat) (e : PyErr),
      collectApartments bn sh dates startRow n = Except.error e →
      ∃ i, i < n ∧ processApartment bn sh dates (startRow + i) = Except.error e := by
  intro n
  induction n with
  | zero =>
      intro s e h
      simp [collectApartments] at h
  | succ n ih =>
      intro s e h
      rcases hpa : processApartment bn sh dates s with e0 | a?
      · have he : e0 = e := by cases e0; cases e; rfl
        exact ⟨0, by omega, by simpa [he] using hpa⟩
      · rcases hr : collectApartments bn sh dates (s + 1) n with e0 | rest
        · have he : e0 = e := by cases e0; cases e; rfl
          obtain ⟨i, hi, hp⟩ := ih (s + 1) e0 hr
          refine ⟨i + 1, by omega, ?_⟩
          have : s + (i + 1) = s + 1 + i := by omega
          rw [this, hp, he]
        · simp [collectApartments, hpa, hr] at h

lemma processApartment_ok_elim (bn : CellValue) (sh : Sheet) (dates : List (Option PyDate))
    (row : Nat) (apt : ApartmentRecord)
    (h : processApartment bn sh dates row = Except.ok (some apt)) :
    apt.raw_text = sh.cellAt row 2 ∧ ¬ sh.cellAt row 2 = CellValue.none ∧
    apt.reservations = buildReservations sh row dates := by
  unfold processApartment at h
  split at h
  · exact absurd h (by simp)
  · next h0 =>
    split at h
    · have h' := Option.some.inj (Except.ok.inj h)
      subst h'
      exact ⟨rfl, h0, rfl⟩
    · split at h
      · exact absurd h (by simp)
      · next s hs =>
        split at h
        · have h' := Option.some.inj (Except.ok.inj h)
          subst h'
          exact ⟨hs.symm, h0, rfl⟩
        · have h' := Option.some.inj (Except.ok.inj h)
          subst h'
          exact ⟨hs.symm, h0, rfl⟩
      · exact absurd h (by simp)

lemma processApartment_error_elim (bn : CellValue) (sh : Sheet) (dates : List (Option PyDate))
    (row : Nat) (e : PyErr)
    (h : processApartment bn sh dates row = Except.error e) :
    (isNumberInstance (sh.cellAt row 2) = true) ∧ ¬ sh.cellAt row 2 = CellValue.none := by
  unfold processApartment at h
  split at h
  · exact absurd h (by simp)
  · next h0 =>
    split at h
    · exact absurd h (by simp)
    · split at h
      · exact absurd h (by simp)
      · split at h <;> exact absurd h (by simp)
      · next hne hns =>
        rcases hv : sh.cellAt row 2 with _ | n | b | ⟨t, r, f⟩ | s
        · exact absurd hv h0
        · exact ⟨rfl, by simp⟩
        · exact ⟨rfl, by simp⟩
        · exact ⟨rfl, by simp⟩
        · exact absurd hv (hns s)

lemma parse_building_table_ok_elim (name : String) (sh : Sheet) (r : Nat) (b : BuildingRecord)
    (hok : parse_building_table name sh r = Except.ok (some b)) :
    ∃ m y, parse_sheet_date name = (some m, some y) ∧
      b.name = sh.cellAt r 2 ∧ b.month = m ∧ b.year = y ∧
      collectApartments (sh.cellAt r 2) sh (datesOf sh y m) (r + 2) (declaredApartments sh r) =
        Except.ok b.apartments := by
  unfold parse_building_table at hok
  split at hok
  · exact absurd hok (by simp)
  · split at hok
    · next m y hdate =>
      split at hok
      · next apts hcoll =>
        have h' := Option.some.inj (Except.ok.inj hok)
        subst h'
        exact ⟨m, y, hdate, rfl, rfl, rfl, hcoll⟩
      · exact absurd hok (by simp)
    · exact absurd hok (by simp)

lemma parse_building_table_error_elim (name : String) (sh : Sheet) (r : Nat) (e : PyErr)
    (herr : parse_building_table name sh r = Except.error e) :
    ∃ m y, parse_sheet_date name = (some m, some y) ∧
      collectApartments (sh.cellAt r 2) sh (datesOf sh y m) (r + 2) (declaredApartments sh r) =
        Except.error e := by
  unfold parse_building_table at herr
  split at herr
  · exact absurd herr (by simp)
  · split at herr
    · next m y hdate =>
      split at herr
      · exact absurd herr (by simp)
      · next e0 hcoll =>
        have h' := Except.error.inj herr
        subst h'
        exact ⟨m, y, hdate, hcoll⟩
    · exact absurd herr (by simp)

lemma exMapM_mem (f : Nat → Except PyErr (Option BuildingRecord)) :
    ∀ (rows : List Nat) (bs : List (Option BuildingRecord)),
      exMapM f rows = Except.ok bs → ∀ b? ∈ bs, ∃ r ∈ rows, f r = Except.ok b? := by
  intro rows
  induction rows with
  | nil =>
      intro bs h b? hm
      simp only [exMapM, Except.ok.injEq] at h
      subst h
      simp at hm
  | cons r rs ih =>
      intro bs h b? hm
      rcases hf : f r with e | b0
      · simp [exMapM, hf] at h
      · rcases hr : exMapM f rs with e | bs0
        · simp [exMapM, hf, hr] at h
        · simp only [exMapM, hf, hr, Except.ok.injEq] at h
          subst h
          rcases List.mem_cons.mp hm with rfl | hm1
          · exact ⟨r, List.mem_cons_self r rs, hf⟩
          · obtain ⟨r1, hr1, hfr⟩ := ih bs0 hr b? hm1
            exact ⟨r1, List.mem_cons_of_mem r hr1, hfr⟩

lemma parse_sheet_ok_elim (name : String) (sh : Sheet) (doc : SheetDocument)
    (hok : parse_sheet name sh = Except.ok (some doc)) :
    ∀ b ∈ doc.buildings, ∃ r ∈ find_building_rows sh,
      parse_building_table name sh r = Except.ok (some b) := by
  intro b hb
  unfold parse_sheet at hok
  split at hok
  · next m y hdate =>
    split at hok
    · exact absurd hok (by simp)
    · split at hok
      · next bs hmap =>
        have h' := Option.some.inj (Except.ok.inj hok)
        subst h'
        have hb' : (some b : Option BuildingRecord) ∈ bs := by
          simpa using (List.mem_filterMap.mp hb)
        exact exMapM_mem (fun r0 => parse_building_table name sh r0) _ bs hmap (some b) hb'
      · exact absurd hok (by simp)
  · exact absurd hok (by simp)

lemma month_abbrev_lookup (i : Nat) (a : String) (h1 : i < 12)
    (h2 : MONTH_ABBREVS[i]? = some a) : SPANISH_MONTHS a = some ((i : Int) + 1) := by
  interval_cases i <;>
    · simp only [MONTH_ABBREVS, List.getElem?_cons_zero, List.getElem?_cons_succ,
        Option.some.injEq] at h2
      subst h2
      decide

lemma month_mem_of_lookup_some (a : String) (m : Int) (h : SPANISH_MONTHS a = some m) :
    a ∈ MONTH_ABBREVS := by
  unfold SPANISH_MONTHS at h
  by_cases h1 : a = ("Ene.")
  · subst h1; decide
  · rw [if_neg h1] at h
    by_cases h2 : a = ("Feb.")
    · subst h2; decide
    · rw [if_neg h2] at h
      by_cases h3 : a = ("Mar.")
      · subst h3; decide
      · rw [if_neg h3] at h
        by_cases h4 : a = ("Abr.")
        · subst h4; decide
        · rw [if_neg h4] at h
          by_cases h5 : a = ("May.")
          · subst h5; decide
          · rw [if_neg h5] at h
            by_cases h6 : a = ("Jun.")
            · subst h6; decide
            · rw [if_neg h6] at h
              by_cases h7 : a = ("Jul.")
              · subst h7; decide
              · rw [if_neg h7] at h
                by_cases h8 : a = ("Ago.")
                · subst h8; decide
                · rw [if_neg h8] at h
                  by_cases h9 : a = ("Sep.")
                  · subst h9; decide
                  · rw [if_neg h9] at h
                    by_cases h10 : a = ("Oct.")
                    · subst h10; decide
                    · rw [if_neg h10] at h
                      by_cases h11 : a = ("Nov.")
                      · subst h11; decide
                      · rw [if_neg h11] at h
                        by_cases h12 : a = ("Dic.")
                        · subst h12; decide
                        · rw [if_neg h12] at h
                          exact absurd h (by simp)

lemma month_lookup_none (a : String) (h : a ∉ MONTH_ABBREVS) : SPANISH_MONTHS a = none := by
  rcases hv : SPANISH_MONTHS a with _ | m
  · rfl
  · exact absurd (month_mem_of_lookup_some a m hv) h

lemma parse_sheet_date_eq2 (s : String) (a y : List Char)
    (hsplit : splitOnSpace s.data = [a, y]) :
    parse_sheet_date s =
      (match SPANISH_MONTHS (String.mk a) with
       | some m =>
          (match pyIntOfString (String.mk y) with
           | some n => (some m, some n)
           | Option.none => ((none : Option Int), (none : Option Int)))
       | Option.none => ((none : Option Int), (none : Option Int))) := by
  unfold parse_sheet_date
  rw [hsplit]

/-- C1.  For every sheet name that splits on single spaces into exactly two
tokens whose first is the `i`-th entry (0-based) of the twelve-entry
Spanish month vocabulary (case-sensitive, trailing period included) and
whose second is accepted by Python `int()`, `parse_sheet_date` returns
`(i + 1, year)` — the abbreviation's calendar month, necessarily between
1 and 12; for every other string (wrong token count, unknown abbreviation,
or non-numeric year) it returns `(None, None)`. -/
theorem C1_parse_sheet_date_spec (s : String) :
    (∀ a y, splitOnSpace s.data = [a, y] →
      ((∀ (i : Nat) (n : Int), i < 12 → MONTH_ABBREVS[i]? = some (String.mk a) →
          pyIntOfString (String.mk y) = some n →
          parse_sheet_date s = (some ((i : Int) + 1), some n) ∧
          1 ≤ (i : Int) + 1 ∧ (i : Int) + 1 ≤ 12) ∧
       (String.mk a ∉ MONTH_ABBREVS → parse_sheet_date s = (none, none)) ∧
       (pyIntOfString (String.mk y) = none → parse_sheet_date s = (none, none)))) ∧
    ((∀ a y, ¬ splitOnSpace s.data = [a, y]) → parse_sheet_date s = (none, none)) := by
  constructor
  · intro a y hsplit
    rw [parse_sheet_date_eq2 s a y hsplit]
    refine ⟨?_, ?_, ?_⟩
    · intro i n hi hget hn
      have hl := month_abbrev_lookup i (String.mk a) hi hget
      rw [hl, hn]
      exact ⟨rfl, by omega, by omega⟩
    · intro hmem
      rw [month_lookup_none (String.mk a) hmem]
    · intro hn
      rcases hv : SPANISH_MONTHS (String.mk a) with _ | mv
      · rfl
      · rw [hn]
  · intro hno
    unfold parse_sheet_date
    rcases hs : splitOnSpace s.data with _ | ⟨a, _ | ⟨y, _ | ⟨z, rest⟩⟩⟩
    · rfl
    · rfl
    · exact absurd hs (hno a y)
    · rfl

/-- C1 witness: the theorem applied to the concrete sheet name
`"Abr. 2025"`, month index 3 (April). -/
theorem C1_witness :
    parse_sheet_date ("Abr. 2025") = (some 4, some 2025) ∧
    (1 : Int) ≤ 4 ∧ (4 : Int) ≤ 12 :=
  ((C1_parse_sheet_date_spec ("Abr. 2025")).1 ("Abr.").data ("2025").data (by decide)).1
    3 2025 (by decide) (by decide) (by decide)

/-- The condition named by claim C2 for column A, following the claim's
words: the cell value parses as a positive integer (an int, a bool — an
int with value 0 or 1 — an integral float, or an `int()`-parseable digit
string, whose parsed value is strictly positive). -/
def claimPositiveIntParseable : CellValue → Bool
  | CellValue.int n => decide (0 < n)
  | CellValue.bool b => b
  | CellValue.float t _ f => !f && decide (0 < t)
  | CellValue.str s =>
      match pyIntOfString s with
      | some n => decide (0 < n)
      | Option.none => false
  | CellValue.none => false

/-- C2 counterexample: on `exC2sheet`, row 6 (column A holding the integer
`0`, column B non-empty, marker `"H"` at row 7) is reported as a
building-table start even though `0` is not parseable as a positive
integer, refuting the claimed "iff". -/
theorem C2_counterexample :
    6 ∈ find_building_rows exC2sheet ∧
    exC2sheet.cellAt 6 1 = CellValue.int 0 ∧
    claimPositiveIntParseable (exC2sheet.cellAt 6 1) = false := by
  refine ⟨by decide, by decide, by decide⟩

/-- C2 amended.  For every sheet and every row `r` in the scanned range
`6..121`, `find_building_rows` reports `r` as a building-table start iff
column B at `r` is non-empty, column A at `r` holds an `int`/`float`
instance (any value, bools included) or an all-digits string, and column A
at `r + 1` holds the marker string `"H"`. -/
theorem C2_find_building_rows_amended (sh : Sheet) (r : Nat) (h6 : 6 ≤ r) (h122 : r < 122) :
    r ∈ find_building_rows sh ↔
      (¬ sh.cellAt r 2 = CellValue.none ∧
       (isNumberInstance (sh.cellAt r 1) || isDigitString (sh.cellAt r 1)) = true ∧
       sh.cellAt (r + 1) 1 = CellValue.str ("H")) := by
  unfold find_building_rows isBuildingStart
  rw [List.mem_filter]
  constructor
  · intro h
    obtain ⟨_, hcond⟩ := h
    simp only [Bool.and_eq_true, decide_eq_true_eq] at hcond
    exact ⟨hcond.1.1, hcond.1.2, hcond.2⟩
  · intro ⟨h1, h2, h3⟩
    refine ⟨?_, ?_⟩
    · rw [List.mem_range'_1]
      omega
    · simp only [Bool.and_eq_true, decide_eq_true_eq]
      exact ⟨⟨h1, h2⟩, h3⟩

/-- C2 witness: row 6 of the example sheet `exS` satisfies the amended
condition and is reported. -/
theorem C2_witness : 6 ∈ find_building_rows exS :=
  (C2_find_building_rows_amended exS 6 (by decide) (by decide)).mpr
    ⟨by decide, by decide, by decide⟩

lemma reservation_provenance (name : String) (sh : Sheet) (r : Nat) (b : BuildingRecord)
    (hok : parse_building_table name sh r = Except.ok (some b))
    (apt : ApartmentRecord) (hapt : apt ∈ b.apartments) :
    ∃ row, apt.reservations = buildReservations sh row (datesOf sh b.year b.month) ∧
      ∀ res ∈ apt.reservations, ∃ k d, k < 28 ∧
        (datesOf sh b.year b.month)[k]? = some (some d) ∧
        parseDayCell b.year b.month (sh.cellAt 5 (3 + k)) = some d ∧
        d.year = b.year ∧ d.month = b.month ∧
        ¬ sh.cellAt row (k + 3) = CellValue.none ∧
        res = { date := d, rate := some (pyStr (sh.cellAt row (k + 3))),
                color := get_cell_color (sh.fillAt row (k + 3)),
                comment := sh.commentAt row (k + 3) } := by
  obtain ⟨m, y, hdate, hname, hm, hy, hcoll⟩ := parse_building_table_ok_elim name sh r b hok
  subst hm
  subst hy
  obtain ⟨i, hi, hproc⟩ := collectApartments_mem _ _ _ _ _ _ hcoll apt hapt
  obtain ⟨hraw, hne, hresv⟩ := processApartment_ok_elim _ _ _ _ _ hproc
  refine ⟨r + 2 + i, hresv, ?_⟩
  intro res hres
  rw [hresv] at hres
  obtain ⟨k, d, hk, hget, hcne, heq⟩ :=
    buildReservationsAux_mem sh (r + 2 + i) (datesOf sh b.year b.month) 0 res hres
  obtain ⟨hk28, hpd, hdy, hdm⟩ := datesOf_some_elim sh b.year b.month k d hget
  refine ⟨k, d, hk28, hget, hpd, hdy, hdm, ?_, ?_⟩
  · simpa [Nat.zero_add] using hcne
  · simpa [Nat.zero_add] using heq

/-- C3 counterexample: on `exC3sheet`, the building starts at row 10 with
its header marker at row 11, and the rows directly below that marker hold
`"x"` at C12 and the day number `9` at C13; yet the single reservation is
dated day `5`, the day number sitting in the fixed header row 5 — the
weekday/day-number rows used do not depend on the building start row. -/
theorem C3_counterexample :
    parse_building_table ("Dic. 2025") exC3sheet 10 = Except.ok (some exC3building) ∧
    exC3sheet.cellAt 12 3 = CellValue.str ("x") ∧
    exC3sheet.cellAt 13 3 = CellValue.int 9 ∧
    exC3sheet.cellAt 5 3 = CellValue.int 5 ∧
    ¬ ({ year := 2025, month := 12, day := 5 } : PyDate) =
      { year := 2025, month := 12, day := 9 } :=
  ⟨rfl, by decide, by decide, by decide, by decide⟩

/-- C3 amended.  For every building table parsed at any start row `r`, the
day-number header cells that date that building's reservations are read
from the fixed sheet row 5 over the fixed column span C..AD (and the
weekday row read alongside is the fixed row 4); the header rows do not
depend on `r`. -/
theorem C3_headers_fixed_row (name : String) (sh : Sheet) (r : Nat) (b : BuildingRecord)
    (hok : parse_building_table name sh r = Except.ok (some b)) :
    ∀ apt ∈ b.apartments, ∀ res ∈ apt.reservations, ∃ j, j < 28 ∧
      parseDayCell b.year b.month (sh.cellAt 5 (3 + j)) = some res.date := by
  intro apt hapt res hres
  obtain ⟨row, hrv, hall⟩ := reservation_provenance name sh r b hok apt hapt
  obtain ⟨k, d, hk, hget, hpd, hdy, hdm, hcne, heq⟩ := hall res hres
  refine ⟨k, hk, ?_⟩
  rw [heq]
  exact hpd

/-- C3 witness: the amended theorem applied to the concrete sheet `exS`
and its building at row 6, for the first reservation of the first
apartment. -/
theorem C3_witness :
    ∃ j, j < 28 ∧ parseDayCell exB.year exB.month (exS.cellAt 5 (3 + j)) = some exRes1.date :=
  C3_headers_fixed_row ("Dic. 2025") exS 6 exB (by rfl) exApt1 (by decide) exRes1 (by decide)

/-- C7.  Every `ReservationRecord` inside a `BuildingRecord` returned by
`parse_building_table` is dated with exactly the building's month and
year: the dates are constructed by `datetime.date` from the sheet's
month/year anchor and a header-row day number, and day numbers invalid
for that month produce no record. -/
theorem C7_reservation_date_in_month (name : String) (sh : Sheet) (r : Nat) (b : BuildingRecord)
    (hok : parse_building_table name sh r = Except.ok (some b)) :
    ∀ apt ∈ b.apartments, ∀ res ∈ apt.reservations,
      res.date.month = b.month ∧ res.date.year = b.year := by
  intro apt hapt res hres
  obtain ⟨row, hrv, hall⟩ := reservation_provenance name sh r b hok apt hapt
  obtain ⟨k, d, hk, hget, hpd, hdy, hdm, hcne, heq⟩ := hall res hres
  rw [heq]
  exact ⟨hdm, hdy⟩

/-- C7 witness: the theorem applied to the concrete sheet `exS`, building
at row 6, second reservation of the first apartment. -/
theorem C7_witness : exRes2.date.month = exB.month ∧ exRes2.date.year = exB.year :=
  C7_reservation_date_in_month ("Dic. 2025") exS 6 exB (by rfl) exApt1 (by decide)
    exRes2 (by decide)

/-- C4 evaluation at the failing input: on `exC4sheet` the apartment
code/owner cell B8 holds the integer `101`; `parse_building_table`
evaluates `'-' in apt_info` on it and the resulting `TypeError`
propagates, aborting `parse_sheet` for the whole sheet instead of
returning a building record or an empty result. -/
theorem C4_typeerror_on_numeric_apartment_cell :
    parse_building_table ("Dic. 2025") exC4sheet 6 = Except.error PyErr.typeError ∧
    parse_sheet ("Dic. 2025") exC4sheet = Except.error PyErr.typeError ∧
    exC4sheet.cellAt 8 2 = CellValue.int 101 :=
  ⟨rfl, rfl, by decide⟩

/-- C5 counterexample: on `exC5sheet` the occupied day cell C8 holds the
non-numeric rate text `"abc"`; the emitted reservation stores the rate as
the string `"abc"` itself — the malformed text — not as null or zero. -/
theorem C5_counterexample :
    parse_building_table ("Dic. 2025") exC5sheet 6 = Except.ok (some exC5building) ∧
    exC5sheet.cellAt 8 3 = CellValue.str ("abc") ∧
    ((exC5building.apartments.map ApartmentRecord.reservations).flatten.map
        ReservationRecord.rate) = [some ("abc")] ∧
    ¬ (some ("abc") : Option String) = none ∧
    ¬ (some ("abc") : Option String) = some ("0") ∧
    ¬ (some ("abc") : Option String) = some ("0.0") :=
  ⟨rfl, by decide, by decide, by decide, by decide, by decide⟩

/-- C5 amended.  For every occupied day cell, the emitted reservation
stores the rate as `str(cell_value)` verbatim — malformed rate text
included — and malformed rate content never makes the parse fail: a
`parse_building_table` error can only originate from an apartment
code/owner cell in column B holding a non-string number value. -/
theorem C5_rate_stored_verbatim (name : String) (sh : Sheet) (r : Nat) :
    (∀ b, parse_building_table name sh r = Except.ok (some b) →
      ∀ apt ∈ b.apartments, ∀ res ∈ apt.reservations, ∃ row k,
        ¬ sh.cellAt row (k + 3) = CellValue.none ∧
        res.rate = some (pyStr (sh.cellAt row (k + 3)))) ∧
    (∀ e, parse_building_table name sh r = Except.error e →
      ∃ i, isNumberInstance (sh.cellAt (r + 2 + i) 2) = true) := by
  constructor
  · intro b hok apt hapt res hres
    obtain ⟨row, hrv, hall⟩ := reservation_provenance name sh r b hok apt hapt
    obtain ⟨k, d, hk, hget, hpd, hdy, hdm, hcne, heq⟩ := hall res hres
    refine ⟨row, k, hcne, ?_⟩
    rw [heq]
  · intro e herr
    obtain ⟨m, y, hdate, hcoll⟩ := parse_building_table_error_elim name sh r e herr
    obtain ⟨i, hi, hproc⟩ := collectApartments_error_elim _ _ _ _ _ _ hcoll
    exact ⟨i, (processApartment_error_elim _ _ _ _ _ hproc).1⟩

/-- C5 witness: the first part of the amended theorem applied to the
concrete sheet `exS` and the reservation with rate `"120.5"`. -/
theorem C5_witness :
    ∃ row k, ¬ exS.cellAt row (k + 3) = CellValue.none ∧
      exRes1.rate = some (pyStr (exS.cellAt row (k + 3))) :=
  (C5_rate_stored_verbatim ("Dic. 2025") exS 6).1 exB (by rfl) exApt1 (by decide)
    exRes1 (by decide)

/-- C6.  For the 28-column day-header scan C5..AD5: the `dates` list keeps
one entry per scanned column with a `None` placeholder exactly at the
columns whose header cell is not parseable into a valid date, and every
apartment's reservations are read only from the columns with parseable
headers, each at exactly its header column offset — the reservation built
for header index `k` reads sheet column `k + 3` of the apartment's row,
never a shifted column. -/
theorem C6_column_alignment (name : String) (sh : Sheet) (r : Nat) (b : BuildingRecord)
    (m y : Int) (hdate : parse_sheet_date name = (some m, some y))
    (hok : parse_building_table name sh r = Except.ok (some b)) :
    (datesOf sh y m).length = 28 ∧
    (∀ j, j < 28 → ((datesOf sh y m)[j]? = some none ↔
        parseDayCell y m (sh.cellAt 5 (3 + j)) = none)) ∧
    (∀ apt ∈ b.apartments, ∃ row,
      apt.reservations = buildReservations sh row (datesOf sh y m) ∧
      ∀ res ∈ apt.reservations, ∃ k d, k < 28 ∧
        (datesOf sh y m)[k]? = some (some d) ∧
        ¬ sh.cellAt row (k + 3) = CellValue.none ∧
        res = { date := d, rate := some (pyStr (sh.cellAt row (k + 3))),
                color := get_cell_color (sh.fillAt row (k + 3)),
                comment := sh.commentAt row (k + 3) }) := by
  have hmy : b.month = m ∧ b.year = y := by
    obtain ⟨m0, y0, hdate0, hname, hm, hy, hcoll⟩ := parse_building_table_ok_elim name sh r b hok
    rw [hdate0] at hdate
    have h1 := congrArg Prod.fst hdate
    have h2 := congrArg Prod.snd hdate
    simp only [] at h1 h2
    exact ⟨by rw [hm, Option.some.inj h1], by rw [hy, Option.some.inj h2]⟩
  refine ⟨datesOf_length sh y m, ?_, ?_⟩
  · intro j hj
    rw [datesOf_getElem sh y m j hj]
    simp
  · intro apt hapt
    obtain ⟨row, hrv, hall⟩ := reservation_provenance name sh r b hok apt hapt
    rw [hmy.1, hmy.2] at hrv hall
    refine ⟨row, hrv, ?_⟩
    intro res hres
    obtain ⟨k, d, hk, hget, hpd, hdy, hdm, hcne, heq⟩ := hall res hres
    exact ⟨k, d, hk, hget, hcne, heq⟩

/-- C6 witness: the placeholder biconditional at the unparseable header
column 1 (`"abc"` in D5) of the concrete sheet `exS`. -/
theorem C6_witness :
    (datesOf exS 2025 12)[1]? = some none ↔
      parseDayCell 2025 12 (exS.cellAt 5 (3 + 1)) = none :=
  (C6_column_alignment ("Dic. 2025") exS 6 exB 12 2025 (by rfl) (by rfl)).2.1 1 (by decide)

lemma legend_hex_meaning : ∀ e ∈ COLOR_LEGEND, legendFindHex e.1 = some e.2.2 := by decide

lemma get_cell_color_rgb_meaning (f : CellFill) (c : ColorInfo)
    (h : get_cell_color f = some c) (ht : c.type = "rgb") :
    ∃ v, c.value = some (ColorVal.str v) ∧ c.meaning = legendFindHex v := by
  have theme_case : ∀ n : Int, themeLegendColor n = c →
      ∃ v, c.value = some (ColorVal.str v) ∧ c.meaning = legendFindHex v := by
    intro n hc
    unfold themeLegendColor at hc
    split at hc
    · next e hfind =>
      refine ⟨e.1, by rw [← hc], ?_⟩
      rw [← hc]
      exact (legend_hex_meaning e (List.mem_of_find?_eq_some hfind)).symm
    · rw [← hc] at ht
      simp at ht
  unfold get_cell_color at h
  split at h
  · exact absurd h (by simp)
  · split at h
    · next n hn =>
      split at h
      · next rgb hrgb =>
        split at h
        · exact theme_case n (Option.some.inj h)
        · have hc := Option.some.inj h
          exact ⟨rgbHexOf rgb, by rw [← hc]; rfl, by rw [← hc]; rfl⟩
      · exact theme_case n (Option.some.inj h)
    · next s hs =>
      split at h
      · have hc := Option.some.inj h
        exact ⟨String.mk ('#' :: s.data.drop 2), by rw [← hc], by rw [← hc]⟩
      · split at h
        · next rgb hrgb =>
          split at h
          · have hc := Option.some.inj h
            rw [← hc] at ht
            simp at ht
          · have hc := Option.some.inj h
            exact ⟨rgbHexOf rgb, by rw [← hc]; rfl, by rw [← hc]; rfl⟩
        · have hc := Option.some.inj h
          rw [← hc] at ht
          simp at ht

/-- C8 counterexample: the bare six-hex-digit RGB string `"FF0000"` (solid
red, no alpha prefix) is classified with value `"#0000"` — the classifier
strips the first two characters because they spell `FF`, even though they
are color digits, not an alpha byte pair — instead of the claimed
`"#FF0000"`. -/
theorem C8_counterexample :
    get_cell_color { fill_type := some ("solid"),
                     start_color := { index := ColorIndex.str ("FF0000"),
                                      rgb := some ("FF0000") } } =
      some { type := "rgb", value := some (ColorVal.str ("#0000")), meaning := none } ∧
    ¬ ("#0000" : String) = "#FF0000" :=
  ⟨rfl, by decide⟩

/-- C8 amended.  The classifier strips the first two characters of an RGB
string exactly when they spell `FF`, so a bare six-hex-digit RGB string
`V` keeps all six digits (value `"#" ++ V`) only when `V` does not start
with `FF`; and the meaning is a function of the produced value: any two
fill descriptors classified with type `rgb` and equal value strings
receive identical meaning. -/
theorem C8_color_normalization (ft : Option String) (idx : ColorIndex) (V : String) :
    (¬ ft = some ("none") → ¬ idx = ColorIndex.str ("00000000") → ¬ V = "" →
      startsFF V.data = false → (∀ s, idx = ColorIndex.str s → startsFF s.data = false) →
      get_cell_color { fill_type := ft, start_color := { index := idx, rgb := some V } } =
        some { type := "rgb", value := some (ColorVal.str ("#" ++ V)),
               meaning := legendFindHex ("#" ++ V) }) ∧
    (∀ f1 f2 c1 c2, get_cell_color f1 = some c1 → get_cell_color f2 = some c2 →
      c1.type = "rgb" → c2.type = "rgb" → c1.value = c2.value → c1.meaning = c2.meaning) := by
  constructor
  · intro hft hidx hV hVff hidxff
    have hhex : rgbHexOf V = "#" ++ V := by
      unfold rgbHexOf
      rw [hVff]
      simp only [Bool.false_eq_true, if_false]
      rfl
    cases idx with
    | int n =>
        unfold get_cell_color
        rw [if_neg (by simp [hft, hidx])]
        simp only []
        rw [if_neg hV]
        unfold rgbColorInfo
        rw [hhex]
    | str s =>
        unfold get_cell_color
        rw [if_neg (by simp [hft, hidx])]
        simp only []
        rw [hidxff s rfl]
        simp only [Bool.false_eq_true, if_false]
        rw [if_neg hV]
        unfold rgbColorInfo
        rw [hhex]
  · intro f1 f2 c1 c2 h1 h2 ht1 ht2 hv
    obtain ⟨v1, hv1, hm1⟩ := get_cell_color_rgb_meaning f1 c1 h1 ht1
    obtain ⟨v2, hv2, hm2⟩ := get_cell_color_rgb_meaning f2 c2 h2 ht2
    rw [hv1, hv2] at hv
    have : v1 = v2 := by
      have := Option.some.inj hv
      exact ColorVal.str.inj this
    rw [hm1, hm2, this]

/-- C8 witness: the first part applied to the bare lowercase hex string
`"2f75b5"` under an integer theme index, and the second part applied to
two encodings of the legend color `#FF6B6B`. -/
theorem C8_witness :
    get_cell_color { fill_type := some ("solid"),
                     start_color := { index := ColorIndex.int 4, rgb := some ("2f75b5") } } =
      some { type := "rgb", value := some (ColorVal.str ("#" ++ "2f75b5")),
             meaning := legendFindHex ("#" ++ "2f75b5") } :=
  (C8_color_normalization (some ("solid")) (ColorIndex.int 4) ("2f75b5")).1
    (by decide) (by decide) (by decide) (by decide) (fun s hs => by cases hs)

/-- C9.  In a building that is not the miscellaneous `"OTROS
APARTAMENTOS"` section, an apartment whose code/owner cell text contains
no `-` separator yields a record with `code` equal to the entire cell
text unchanged (not trimmed), `owner` the empty string, and `raw_text`
the same cell text verbatim. -/
theorem C9_no_separator_split (name : String) (sh : Sheet) (r : Nat) (b : BuildingRecord)
    (hok : parse_building_table name sh r = Except.ok (some b))
    (hno : (pyTruthy b.name && containsSub ("OTROS APARTAMENTOS").data (pyStr b.name).data) = false)
    (apt : ApartmentRecord) (hapt : apt ∈ b.apartments) (s : String)
    (hraw : apt.raw_text = CellValue.str s)
    (hnodash : containsSub ['-'] s.data = false) :
    apt.code = some s ∧ apt.owner = CellValue.str ("") ∧ apt.raw_text = CellValue.str s := by
  obtain ⟨m, y, hdate, hname, hm, hy, hcoll⟩ := parse_building_table_ok_elim name sh r b hok
  obtain ⟨i, hi, hproc⟩ := collectApartments_mem _ _ _ _ _ _ hcoll apt hapt
  rw [hname] at hno
  unfold processApartment at hproc
  split at hproc
  · exact absurd hproc (by simp)
  · next h0 =>
    split at hproc
    · next hotros =>
      rw [hotros] at hno
      simp at hno
    · split at hproc
      · exact absurd hproc (by simp)
      · next s0 hs0 =>
        split at hproc
        · next hdash =>
          have h' := Option.some.inj (Except.ok.inj hproc)
          subst h'
          have hss : CellValue.str s0 = CellValue.str s := hraw
          have hs0s : s0 = s := CellValue.str.inj hss
          subst hs0s
          rw [hnodash] at hdash
          simp at hdash
        · next hdash =>
          have h' := Option.some.inj (Except.ok.inj hproc)
          subst h'
          have hss : CellValue.str s0 = CellValue.str s := hraw
          have hs0s : s0 = s := CellValue.str.inj hss
          subst hs0s
          exact ⟨rfl, rfl, rfl⟩
      · exact absurd hproc (by simp)

/-- C9 witness: the theorem applied to the second apartment of the
concrete sheet `exS`, whose cell text `" A102 "` has no separator; the
code keeps the surrounding spaces. -/
theorem C9_witness :
    exApt2.code = some (" A102 ") ∧ exApt2.owner = CellValue.str ("") ∧
    exApt2.raw_text = CellValue.str (" A102 ") :=
  C9_no_separator_split ("Dic. 2025") exS 6 exB (by rfl) (by decide) exApt2 (by decide)
    (" A102 ") (by decide) (by decide)

/-- C10.  Every row reported by `find_building_rows` lies in the fixed
scan window `6 ≤ r ≤ 121`, the reported rows are strictly increasing
(top-to-bottom row order), and every building in `parse_sheet` output
comes from one of the reported rows — so a table starting outside the
window is never located and never appears in the output. -/
theorem C10_scan_window (name : String) (sh : Sheet) :
    (∀ r ∈ find_building_rows sh, 6 ≤ r ∧ r ≤ 121) ∧
    List.Pairwise (· < ·) (find_building_rows sh) ∧
    (∀ doc, parse_sheet name sh = Except.ok (some doc) →
      ∀ b ∈ doc.buildings, ∃ r ∈ find_building_rows sh,
        parse_building_table name sh r = Except.ok (some b)) := by
  refine ⟨?_, ?_, ?_⟩
  · intro r hr
    have hmem := (List.mem_filter.mp hr).1
    rw [List.mem_range'_1] at hmem
    omega
  · have h1 : List.Pairwise (· < ·) (List.range' 6 116) := by
      rw [List.range'_eq_map_range]
      exact List.Pairwise.map _ (fun a b hab => Nat.add_lt_add_left hab 6)
        (List.pairwise_lt_range 116)
    exact h1.filter _
  · intro doc hdoc b hb
    exact parse_sheet_ok_elim name sh doc hdoc b hb

/-- C10 witness: the theorem applied to the concrete sheet `exS`, whose
single reported row 6 is in the window and produces the building `exB`. -/
theorem C10_witness :
    (6 ≤ 6 ∧ 6 ≤ 121) ∧
    (∃ r ∈ find_building_rows exS,
      parse_building_table ("Dic. 2025") exS r = Except.ok (some exB)) :=
  ⟨(C10_scan_window ("Dic. 2025") exS).1 6 (by decide),
   (C10_scan_window ("Dic. 2025") exS).2.2 exDoc (by rfl) exB (by decide)⟩
